import Mathlib

/-!
Shallow embedding of the Echoes single-page component (the view/session state
machine of the repository). The component keeps six pieces of React state
(input, loading, data, error, view, synthesisImage), persists a session
snapshot to a browser key-value store whenever a result is held, and drives
four view screens. Each definition below embeds the correspondingly named
function of the source component; async handlers are split into their
synchronous start phase (everything before the awaited call) and their
resolution phase (the continuation run when the promise settles), with the
outcome of the external call abstracted as a parameter.
-/

/-- EchoItem: one curated artifact, as declared in the types module. -/
structure EchoItem where
  type : String
  title : String
  creator : String
  year : String
  content : String
deriving DecidableEq, Repr

/-- EchoData: the structured result of one retrieval, as declared in the
types module. -/
structure EchoData where
  thematic_key : String
  color_hex : String
  echoes : List EchoItem
  community_insight : String
  search_query : String
deriving DecidableEq, Repr

/-- ViewState: the four screens of the component
(input, echo, synthesizing, artifact). -/
inductive ViewState where
  | input
  | echo
  | synthesizing
  | artifact
deriving DecidableEq, Repr

/-- ComponentState: the React state variables of the Echoes component
(the placeholder rotation index is omitted; it is touched only by a
display timer and read only for placeholder text). -/
structure ComponentState where
  input : String
  loading : Bool
  data : Option EchoData
  error : String
  view : ViewState
  synthesisImage : Option String
deriving DecidableEq, Repr

/-- Initial React state: useState initialisers of the component. -/
def initialState : ComponentState :=
  { input := "", loading := false, data := none, error := "",
    view := ViewState.input, synthesisImage := none }

/-- Snapshot: the JSON object persisted under the echoes_active_session key.
Fields are optional because the restore path reads each field defensively;
the save path always writes all four. -/
structure Snapshot where
  data : Option EchoData
  input : Option String
  view : Option ViewState
  synthesisImage : Option String
deriving DecidableEq, Repr

/-- JavaScript truthiness of a nullable string: null and the empty string
are falsy, every other string is truthy. -/
def jsTruthyStr : Option String → Bool
  | some s => s != ""
  | none => false

/-- Session-restore effect (mount effect): reads the stored snapshot; if it
holds a truthy data field, sets data, input (with empty-string default) and
view (with echo default), and sets synthesisImage only when the stored view
is artifact and the stored image reference is truthy. -/
def restoreSession (st : Option Snapshot) (c : ComponentState) : ComponentState :=
  match st with
  | none => c
  | some snap =>
    match snap.data with
    | none => c
    | some d =>
      let c1 : ComponentState :=
        { c with data := some d,
                 input := snap.input.getD "",
                 view := snap.view.getD ViewState.echo }
      if snap.view = some ViewState.artifact ∧ jsTruthyStr snap.synthesisImage = true then
        { c1 with synthesisImage := snap.synthesisImage }
      else c1

/-- Session-save effect: runs after every committed state change to data,
input, view or synthesisImage; writes a snapshot only when data is non-null,
otherwise leaves the store untouched. -/
def saveEffect (c : ComponentState) (st : Option Snapshot) : Option Snapshot :=
  match c.data with
  | some d =>
      some { data := some d, input := some c.input, view := some c.view,
             synthesisImage := c.synthesisImage }
  | none => st

/-- Outcome of the external retrieval call (findEchoesForFeeling): either a
structurally valid EchoData or a thrown transport/parse error. -/
inductive FetchOutcome where
  | success (d : EchoData)
  | failure
deriving DecidableEq, Repr

/-- Outcome of the artifact synthesis attempt: a verified-loaded image URL,
a thrown error from the generation call, or an image-decode failure
(the img.onerror path). -/
inductive SynthOutcome where
  | success (url : String)
  | transportFailure
  | decodeFailure
deriving DecidableEq, Repr

/-- JavaScript String.prototype.trim, modelled structurally over the
character list: drops leading and trailing whitespace. -/
def jsTrim (s : String) : String :=
  String.mk ((s.data.dropWhile Char.isWhitespace).reverse.dropWhile
    Char.isWhitespace).reverse

/-- Error message set by findEcho on a failed retrieval. -/
def archiveSilentMsg : String := "The archive is silent. Please try again."

/-- Search term computed by findEcho: overrideInput || input, with the
empty string (the only falsy string) falling back to the held input. -/
def findEchoSearchTerm (ov : Option String) (c : ComponentState) : String :=
  match ov with
  | some o => if o = "" then c.input else o
  | none => c.input

/-- Synchronous phase of findEcho: returns unchanged with no request when
the search term is empty or whitespace-only, otherwise sets loading, clears
the error and the synthesis image, and issues the request. The Bool records
whether a request was issued. -/
def findEchoStart (ov : Option String) (c : ComponentState) : ComponentState × Bool :=
  if jsTrim (findEchoSearchTerm ov c) = "" then (c, false)
  else ({ c with loading := true, error := "", synthesisImage := none }, true)

/-- Resolution phase of findEcho: on success stores the result and moves the
view to echo; on failure sets the generic error; the finally block clears
loading in both cases. -/
def findEchoResolve (o : FetchOutcome) (c : ComponentState) : ComponentState :=
  match o with
  | FetchOutcome.success d =>
      { c with data := some d, view := ViewState.echo, loading := false }
  | FetchOutcome.failure =>
      { c with error := archiveSilentMsg, loading := false }

/-- findEcho run to completion with no interleaving event: the start phase
followed, when a request was issued, by the resolution of that request. -/
def findEcho (ov : Option String) (o : FetchOutcome) (c : ComponentState) : ComponentState :=
  let p := findEchoStart ov c
  if p.2 then findEchoResolve o p.1 else p.1

/-- Error message set by generateArtifact when the image fails to decode. -/
def renderFailMsg : String := "Unable to render artifact."

/-- Error message set by generateArtifact when the generation call throws. -/
def synthFailMsg : String := "Unable to synthesize artifact visual. Try again."

/-- Synchronous phase of generateArtifact: a no-op when no data is held,
otherwise immediately moves the view to synthesizing (before the network
call resolves) and issues the request. -/
def generateArtifactStart (c : ComponentState) : ComponentState × Bool :=
  if c.data.isSome then ({ c with view := ViewState.synthesizing }, true)
  else (c, false)

/-- Resolution phase of generateArtifact: img.onload stores the image and
moves to artifact; img.onerror and the catch block set their error messages
and move back to echo. -/
def generateArtifactResolve (o : SynthOutcome) (c : ComponentState) : ComponentState :=
  match o with
  | SynthOutcome.success url =>
      { c with synthesisImage := some url, view := ViewState.artifact }
  | SynthOutcome.decodeFailure =>
      { c with error := renderFailMsg, view := ViewState.echo }
  | SynthOutcome.transportFailure =>
      { c with error := synthFailMsg, view := ViewState.echo }

/-- handleReset, state part: clears data, input and synthesisImage and
returns the view to input. It does not touch error or loading. The
localStorage removal is modelled at the session level. -/
def handleReset (c : ComponentState) : ComponentState :=
  { c with data := none, input := "", view := ViewState.input,
           synthesisImage := none }

/-- handleBack: artifact goes back to echo, echo goes back to input,
anything else is unchanged. -/
def handleBack (c : ComponentState) : ComponentState :=
  if c.view = ViewState.artifact then { c with view := ViewState.echo }
  else if c.view = ViewState.echo then { c with view := ViewState.input }
  else c

/-- Canvas width used by handleDownloadCard (fixed card width, also the
drawn image extent: the image is drawn as a width-by-width square). -/
def cardWidth : Nat := 1200

/-- Tracklist height computed by handleDownloadCard before the canvas is
sized: 150 plus 80 per echo. -/
def tracklistHeight (d : EchoData) : Nat := 150 + d.echoes.length * 80

/-- Canvas height computed by handleDownloadCard before the canvas is
sized: card width plus tracklist height. -/
def cardHeight (d : EchoData) : Nat := cardWidth + tracklistHeight d

/-- Which screen the component body actually renders, following the render
guards of the JSX: the echo screen also requires data, and the artifact
screen requires a truthy synthesisImage and data. A state whose view passes
no guard renders no main screen at all. -/
def renderedView (c : ComponentState) : Option ViewState :=
  if c.view = ViewState.input then some ViewState.input
  else if c.view = ViewState.echo ∧ c.data.isSome = true then some ViewState.echo
  else if c.view = ViewState.synthesizing then some ViewState.synthesizing
  else if c.view = ViewState.artifact ∧ jsTruthyStr c.synthesisImage = true
          ∧ c.data.isSome = true then some ViewState.artifact
  else none

/-- Whether the error string is rendered on the input screen: the input view
block renders the error div exactly when the error string is truthy. -/
def errorShownInInput (c : ComponentState) : Bool :=
  decide (c.view = ViewState.input) && (c.error != "")

/-- Session: the component state together with the persistence slot and
flags recording whether a retrieval or synthesis request is in flight
(the source keeps no such token; the flags only constrain which resolution
events can occur, they are never read by the transition functions). -/
structure Session where
  comp : ComponentState
  store : Option Snapshot
  pendingFetch : Bool
  pendingSynth : Bool
deriving DecidableEq, Repr

/-- The session at process start with an empty persistence slot. -/
def initSession : Session :=
  { comp := initialState, store := none, pendingFetch := false,
    pendingSynth := false }

/-- Events of the session machine: user interactions, arrivals of async
results, and the mount-time restore. -/
inductive Event where
  | editInput (t : String)
  | submitStart (ov : Option String)
  | fetchArrive (o : FetchOutcome)
  | synthStart
  | synthArrive (o : SynthOutcome)
  | reset
  | back
  | restore
deriving DecidableEq, Repr

/-- One step of the session machine: the event updates the component state
exactly as the source handler does, and the save effect then runs on the
committed state (the source effect fires on every change of its
dependencies). An arrival event with no request in flight cannot occur and
is modelled as a no-op; arrivals are otherwise applied unconditionally, as
in the source, which holds no staleness token. -/
def step (s : Session) : Event → Session
  | Event.editInput t =>
      let c := { s.comp with input := t }
      { s with comp := c, store := saveEffect c s.store }
  | Event.submitStart ov =>
      let p := findEchoStart ov s.comp
      { s with comp := p.1, store := saveEffect p.1 s.store,
               pendingFetch := s.pendingFetch || p.2 }
  | Event.fetchArrive o =>
      if s.pendingFetch then
        let c := findEchoResolve o s.comp
        { s with comp := c, store := saveEffect c s.store,
                 pendingFetch := false }
      else s
  | Event.synthStart =>
      let p := generateArtifactStart s.comp
      { s with comp := p.1, store := saveEffect p.1 s.store,
               pendingSynth := s.pendingSynth || p.2 }
  | Event.synthArrive o =>
      if s.pendingSynth then
        let c := generateArtifactResolve o s.comp
        { s with comp := c, store := saveEffect c s.store,
                 pendingSynth := false }
      else s
  | Event.reset =>
      let c := handleReset s.comp
      { s with comp := c, store := saveEffect c none }
  | Event.back =>
      let c := handleBack s.comp
      { s with comp := c, store := saveEffect c s.store }
  | Event.restore =>
      let c := restoreSession s.store s.comp
      { s with comp := c, store := saveEffect c s.store }

/-- Sessions reachable from process start. -/
inductive Reachable : Session → Prop where
  | init : Reachable initSession
  | next {s : Session} (e : Event) : Reachable s → Reachable (step s e)

/-- A concrete EchoData value used in witnesses and counterexamples. -/
def demoData : EchoData :=
  { thematic_key := "Entropy",
    color_hex := "#a5f3fc",
    echoes := [{ type := "Poetry", title := "Ozymandias",
                 creator := "Percy Shelley", year := "1818",
                 content := "Look on my works" },
               { type := "Song", title := "Svefn-g-englar",
                 creator := "Sigur Ros", year := "1999",
                 content := "Floating weightless" }],
    community_insight := "Many feel this at dusk.",
    search_query := "entropy feeling" }

/-- Concrete result state: a successful submit of "melancholy" from the
initial state (view echo, data held). -/
def echoResultState : ComponentState :=
  findEcho none (FetchOutcome.success demoData)
    { initialState with input := "melancholy" }

/-- Concrete Result-screen state holding a previously synthesized image:
after a successful synthesis the user pressed back once
(view echo, synthesisImage still set). -/
def echoWithImageState : ComponentState :=
  handleBack (generateArtifactResolve
    (SynthOutcome.success "https://img.example/a.png")
    (generateArtifactStart echoResultState).1)

/-- Concrete Input-screen state holding a previously synthesized image:
after a successful synthesis the user pressed back twice
(view input, synthesisImage still set). -/
def inputWithImageState : ComponentState :=
  handleBack echoWithImageState

/-- Concrete state whose input is whitespace only. -/
def whitespaceInputState : ComponentState :=
  { initialState with input := "   " }

/-- Concrete persisted snapshot whose view is artifact but whose
artifact-image reference is absent. -/
def artifactNoImageSnap : Snapshot :=
  { data := some demoData, input := some "melancholy",
    view := some ViewState.artifact, synthesisImage := none }

/-- The state produced by restoring that snapshot at startup. -/
def artifactNoImageSnapState : ComponentState :=
  restoreSession (some artifactNoImageSnap) initialState

/-- The persistence invariant: the store holds a snapshot exactly when a
result is held, and every stored snapshot itself carries a result. -/
@[reducible] def sessionInv (s : Session) : Prop :=
  (s.store.isSome = true ↔ s.comp.data.isSome = true) ∧
  (∀ snap, s.store = some snap → snap.data.isSome = true)

theorem saveEffect_inv (c : ComponentState) (st : Option Snapshot)
    (h1 : st.isSome = true → c.data.isSome = true)
    (h2 : ∀ snap, st = some snap → snap.data.isSome = true) :
    ((saveEffect c st).isSome = true ↔ c.data.isSome = true) ∧
    (∀ snap, saveEffect c st = some snap → snap.data.isSome = true) := by
  cases hd : c.data with
  | some d =>
    constructor
    · simp [saveEffect, hd]
    · intro snap hsnap
      simp only [saveEffect, hd] at hsnap
      cases hsnap
      simp
  | none =>
    constructor
    · simp only [saveEffect, hd, Option.isSome_none]
      constructor
      · intro hs
        have hc := h1 hs
        rw [hd] at hc
        simp at hc
      · intro hF
        simp at hF
    · intro snap hsnap
      simp only [saveEffect, hd] at hsnap
      exact h2 snap hsnap

theorem findEchoStart_data (ov : Option String) (c : ComponentState) :
    ((findEchoStart ov c).1).data = c.data := by
  unfold findEchoStart
  split <;> rfl

theorem findEchoResolve_data_failure (c : ComponentState) :
    (findEchoResolve FetchOutcome.failure c).data = c.data := rfl

theorem generateArtifactStart_data (c : ComponentState) :
    ((generateArtifactStart c).1).data = c.data := by
  unfold generateArtifactStart
  split <;> rfl

theorem generateArtifactResolve_data (o : SynthOutcome) (c : ComponentState) :
    (generateArtifactResolve o c).data = c.data := by
  cases o <;> rfl

theorem handleBack_data (c : ComponentState) :
    (handleBack c).data = c.data := by
  unfold handleBack
  split
  · rfl
  · split <;> rfl

theorem restoreSession_data (snap : Snapshot) (c : ComponentState) (d : EchoData)
    (hd : snap.data = some d) :
    (restoreSession (some snap) c).data = some d := by
  simp only [restoreSession, hd]
  split <;> rfl

theorem step_preserves_inv (s : Session) (e : Event) (h : sessionInv s) :
    sessionInv (step s e) := by
  obtain ⟨hiff, hsnap⟩ := h
  cases e with
  | editInput t =>
    exact saveEffect_inv { s.comp with input := t } s.store
      (fun hs => hiff.mp hs) hsnap
  | submitStart ov =>
    exact saveEffect_inv (findEchoStart ov s.comp).1 s.store
      (fun hs => by rw [findEchoStart_data]; exact hiff.mp hs) hsnap
  | fetchArrive o =>
    simp only [step]
    by_cases hp : s.pendingFetch = true
    · rw [if_pos hp]
      cases o with
      | success d =>
        exact saveEffect_inv (findEchoResolve (FetchOutcome.success d) s.comp)
          s.store (fun _ => rfl) hsnap
      | failure =>
        exact saveEffect_inv (findEchoResolve FetchOutcome.failure s.comp)
          s.store
          (fun hs => by rw [findEchoResolve_data_failure]; exact hiff.mp hs)
          hsnap
    · rw [if_neg hp]
      exact ⟨hiff, hsnap⟩
  | synthStart =>
    exact saveEffect_inv (generateArtifactStart s.comp).1 s.store
      (fun hs => by rw [generateArtifactStart_data]; exact hiff.mp hs) hsnap
  | synthArrive o =>
    simp only [step]
    by_cases hp : s.pendingSynth = true
    · rw [if_pos hp]
      exact saveEffect_inv (generateArtifactResolve o s.comp) s.store
        (fun hs => by rw [generateArtifactResolve_data]; exact hiff.mp hs)
        hsnap
    · rw [if_neg hp]
      exact ⟨hiff, hsnap⟩
  | reset =>
    exact saveEffect_inv (handleReset s.comp) none
      (fun hs => by simp at hs)
      (fun snap hsn => by simp at hsn)
  | back =>
    exact saveEffect_inv (handleBack s.comp) s.store
      (fun hs => by rw [handleBack_data]; exact hiff.mp hs) hsnap
  | restore =>
    exact saveEffect_inv (restoreSession s.store s.comp) s.store
      (fun hs => by
        cases hst : s.store with
        | none => rw [hst] at hs; simp at hs
        | some snap =>
          have hdi := hsnap snap hst
          cases hd : snap.data with
          | none => rw [hd] at hdi; simp at hdi
          | some d =>
            rw [restoreSession_data snap s.comp d hd]
            rfl)
      hsnap

theorem reachable_inv {s : Session} (h : Reachable s) : sessionInv s := by
  induction h with
  | init =>
    constructor
    · simp [initSession, initialState]
    · intro snap hsn
      simp [initSession] at hsn
  | next e _ ih => exact step_preserves_inv _ e ih

/-- C1 (amended): a failing submit from the Input view with a non-blank
input leaves the view in Input with the generic archive error set and keeps
the held result and the input text unchanged, but the artifact-image
reference is cleared: findEcho nulls synthesisImage before issuing the
call, and the failure path never restores it. -/
theorem submit_failure_keeps_state_except_image (c : ComponentState)
    (hv : c.view = ViewState.input) (hi : jsTrim c.input ≠ "") :
    (findEcho none FetchOutcome.failure c).view = ViewState.input ∧
    (findEcho none FetchOutcome.failure c).error = archiveSilentMsg ∧
    (findEcho none FetchOutcome.failure c).data = c.data ∧
    (findEcho none FetchOutcome.failure c).input = c.input ∧
    (findEcho none FetchOutcome.failure c).synthesisImage = none := by
  simp [findEcho, findEchoStart, findEchoSearchTerm, findEchoResolve,
    if_neg hi, hv]

/-- C1 witness: the amended statement instantiated at a concrete reachable
Input-view state that still holds a synthesized image (reached by a
successful submit, a successful synthesis, and pressing back twice). -/
theorem submit_failure_keeps_state_except_image_witness :
    (inputWithImageState.view = ViewState.input ∧
     jsTrim inputWithImageState.input ≠ "") ∧
    ((findEcho none FetchOutcome.failure inputWithImageState).view = ViewState.input ∧
     (findEcho none FetchOutcome.failure inputWithImageState).error = archiveSilentMsg ∧
     (findEcho none FetchOutcome.failure inputWithImageState).data = inputWithImageState.data ∧
     (findEcho none FetchOutcome.failure inputWithImageState).input = inputWithImageState.input ∧
     (findEcho none FetchOutcome.failure inputWithImageState).synthesisImage = none) :=
  ⟨⟨by decide, by decide⟩,
   submit_failure_keeps_state_except_image inputWithImageState
     (by decide) (by decide)⟩

/-- C1 counterexample: from a reachable Input-view state that still holds a
synthesized image, a failing submit mutates the artifact-image reference
(it is cleared), refuting the claim that the held result, the input text
and the artifact-image reference are all unchanged. -/
theorem submit_failure_image_mutated_cex :
    inputWithImageState.view = ViewState.input ∧
    jsTrim inputWithImageState.input ≠ "" ∧
    inputWithImageState.synthesisImage = some "https://img.example/a.png" ∧
    (findEcho none FetchOutcome.failure inputWithImageState).view = ViewState.input ∧
    (findEcho none FetchOutcome.failure inputWithImageState).synthesisImage ≠
      inputWithImageState.synthesisImage := by
  decide

/-- C3 counterexample: restoring a snapshot whose view field is artifact
but whose artifact-image reference is absent leaves the machine in the
artifact view state, not in the Result (echo) state; no main screen passes
its render guard. -/
theorem restore_artifact_without_image_cex :
    artifactNoImageSnapState.view = ViewState.artifact ∧
    artifactNoImageSnapState.view ≠ ViewState.echo ∧
    renderedView artifactNoImageSnapState = none := by
  decide

/-- C3 (amended): restoring a snapshot with view artifact, a present
result, and an absent (or empty) artifact-image reference leaves the
machine in the artifact view with no image; the artifact render guard then
fails, so no screen is rendered at all, rather than degrading to Result. -/
theorem restore_artifact_without_image_stays_artifact
    (snap : Snapshot) (d : EchoData)
    (hd : snap.data = some d) (hv : snap.view = some ViewState.artifact)
    (hi : jsTruthyStr snap.synthesisImage = false) :
    (restoreSession (some snap) initialState).view = ViewState.artifact ∧
    (restoreSession (some snap) initialState).synthesisImage = none ∧
    renderedView (restoreSession (some snap) initialState) = none := by
  have hcond : ¬ (snap.view = some ViewState.artifact ∧
      jsTruthyStr snap.synthesisImage = true) := by
    rintro ⟨-, h2⟩
    rw [hi] at h2
    exact Bool.false_ne_true h2
  simp only [restoreSession, hd]
  rw [if_neg hcond]
  simp [hv, renderedView, jsTruthyStr, initialState]

/-- C3 witness: the amended statement instantiated at the concrete
snapshot used by the counterexample. -/
theorem restore_artifact_without_image_witness :
    (artifactNoImageSnap.data = some demoData ∧
     artifactNoImageSnap.view = some ViewState.artifact ∧
     jsTruthyStr artifactNoImageSnap.synthesisImage = false) ∧
    ((restoreSession (some artifactNoImageSnap) initialState).view = ViewState.artifact ∧
     (restoreSession (some artifactNoImageSnap) initialState).synthesisImage = none ∧
     renderedView (restoreSession (some artifactNoImageSnap) initialState) = none) :=
  ⟨⟨rfl, rfl, rfl⟩,
   restore_artifact_without_image_stays_artifact artifactNoImageSnap demoData
     rfl rfl rfl⟩

/-- C4 (amended): a failing reshuffle from the Result (echo) view retains
the prior result unchanged, keeps the view at echo and the input text
unchanged, and sets the generic error message, but the artifact-image
reference is cleared by findEcho before the call rather than left
unchanged. -/
theorem reshuffle_failure_keeps_result_clears_image (c : ComponentState)
    (hv : c.view = ViewState.echo) (hi : jsTrim c.input ≠ "") :
    (findEcho none FetchOutcome.failure c).view = ViewState.echo ∧
    (findEcho none FetchOutcome.failure c).data = c.data ∧
    (findEcho none FetchOutcome.failure c).error = archiveSilentMsg ∧
    (findEcho none FetchOutcome.failure c).input = c.input ∧
    (findEcho none FetchOutcome.failure c).synthesisImage = none := by
  simp [findEcho, findEchoStart, findEchoSearchTerm, findEchoResolve,
    if_neg hi, hv]

/-- C4 witness: the amended statement instantiated at a concrete reachable
echo-view state still holding a synthesized image (successful submit,
successful synthesis, back once). -/
theorem reshuffle_failure_keeps_result_clears_image_witness :
    (echoWithImageState.view = ViewState.echo ∧
     jsTrim echoWithImageState.input ≠ "") ∧
    ((findEcho none FetchOutcome.failure echoWithImageState).view = ViewState.echo ∧
     (findEcho none FetchOutcome.failure echoWithImageState).data = echoWithImageState.data ∧
     (findEcho none FetchOutcome.failure echoWithImageState).error = archiveSilentMsg ∧
     (findEcho none FetchOutcome.failure echoWithImageState).input = echoWithImageState.input ∧
     (findEcho none FetchOutcome.failure echoWithImageState).synthesisImage = none) :=
  ⟨⟨by decide, by decide⟩,
   reshuffle_failure_keeps_result_clears_image echoWithImageState
     (by decide) (by decide)⟩

/-- C4 counterexample: from a reachable echo-view state that still holds a
synthesized image, a failing reshuffle keeps the result and the view but
mutates held state beyond the error message: the artifact-image reference
is cleared. -/
theorem reshuffle_failure_image_mutated_cex :
    echoWithImageState.view = ViewState.echo ∧
    echoWithImageState.data = some demoData ∧
    jsTrim echoWithImageState.input ≠ "" ∧
    echoWithImageState.synthesisImage = some "https://img.example/a.png" ∧
    (findEcho none FetchOutcome.failure echoWithImageState).data =
      echoWithImageState.data ∧
    (findEcho none FetchOutcome.failure echoWithImageState).view = ViewState.echo ∧
    (findEcho none FetchOutcome.failure echoWithImageState).synthesisImage ≠
      echoWithImageState.synthesisImage := by
  decide

/-- C8: the compositor canvas height computed by handleDownloadCard before
the canvas is sized is always the card (image) width plus 150 plus 80 per
echo; in particular two echoes at width 1200 give 1510. -/
theorem card_height_formula :
    (∀ d : EchoData, cardHeight d = cardWidth + 150 + 80 * d.echoes.length) ∧
    cardHeight demoData = 1510 := by
  constructor
  · intro d
    simp only [cardHeight, cardWidth, tracklistHeight]
    omega
  · decide

/-- C9: submitting an empty or whitespace-only input is a no-op: the start
phase issues no request and returns the state unchanged, so for any
supposed outcome the whole submit leaves the state identical. -/
theorem blank_input_submit_noop (c : ComponentState)
    (hb : jsTrim c.input = "") :
    findEchoStart none c = (c, false) ∧
    (∀ o, findEcho none o c = c) := by
  constructor
  · simp [findEchoStart, findEchoSearchTerm, hb]
  · intro o
    simp [findEcho, findEchoStart, findEchoSearchTerm, hb]

/-- C9 witness: the no-op statement instantiated at a whitespace-only
input. -/
theorem blank_input_submit_noop_witness :
    jsTrim whitespaceInputState.input = "" ∧
    (findEchoStart none whitespaceInputState = (whitespaceInputState, false) ∧
     (∀ o, findEcho none o whitespaceInputState = whitespaceInputState)) :=
  ⟨by decide, blank_input_submit_noop whitespaceInputState (by decide)⟩

/-- C10: handleReset does not touch the error string: after a reset the
error is unchanged and the view is input, and the input screen shows the
error exactly when it was set before the reset. -/
theorem reset_preserves_error (c : ComponentState) :
    (handleReset c).error = c.error ∧
    (handleReset c).view = ViewState.input ∧
    errorShownInInput (handleReset c) = (c.error != "") := by
  refine ⟨rfl, rfl, ?_⟩
  simp [errorShownInInput, handleReset]

/-- A session with both a retrieval and a synthesis request in flight. -/
def bothPendingSession : Session :=
  { comp := initialState, store := none, pendingFetch := true,
    pendingSynth := true }

/-- Session after a submit of "sad" was started and the user then reset:
the retrieval request is still in flight. -/
def sessionResetWithStaleFetch : Session :=
  step (step (step initSession (Event.editInput "sad")) (Event.submitStart none))
    Event.reset

/-- The same session after the stale retrieval result arrives. -/
def sessionStaleFetchApplied : Session :=
  step sessionResetWithStaleFetch (Event.fetchArrive (FetchOutcome.success demoData))

/-- C2 counterexample: a retrieval result arriving after the user reset is
not discarded: it overwrites the freshly reset session, setting the result,
moving the view to echo, and re-persisting a snapshot the reset had
removed. -/
theorem stale_fetch_overwrites_cex :
    sessionResetWithStaleFetch.pendingFetch = true ∧
    sessionResetWithStaleFetch.comp.view = ViewState.input ∧
    sessionResetWithStaleFetch.comp.data = none ∧
    sessionResetWithStaleFetch.store = none ∧
    sessionStaleFetchApplied.comp ≠ sessionResetWithStaleFetch.comp ∧
    sessionStaleFetchApplied.comp.view = ViewState.echo ∧
    sessionStaleFetchApplied.comp.data = some demoData ∧
    sessionStaleFetchApplied.store.isSome = true := by
  decide

/-- C2 (amended): the code holds no staleness token, so async completions
that are still in flight when the user resets are applied on arrival: a
stale retrieval success installs its result, moves the view to echo and
re-persists a snapshot, and a stale synthesis success installs its image
and moves the view to artifact. -/
theorem stale_results_applied (s : Session) (d : EchoData) (url : String)
    (hf : s.pendingFetch = true) (hs : s.pendingSynth = true) :
    (step (step s Event.reset) (Event.fetchArrive (FetchOutcome.success d))).comp.data = some d ∧
    (step (step s Event.reset) (Event.fetchArrive (FetchOutcome.success d))).comp.view = ViewState.echo ∧
    (step (step s Event.reset) (Event.fetchArrive (FetchOutcome.success d))).store.isSome = true ∧
    (step (step s Event.reset) (Event.synthArrive (SynthOutcome.success url))).comp.synthesisImage = some url ∧
    (step (step s Event.reset) (Event.synthArrive (SynthOutcome.success url))).comp.view = ViewState.artifact := by
  simp [step, handleReset, saveEffect, findEchoResolve,
    generateArtifactResolve, hf, hs]

/-- C2 witness: the amended statement instantiated at a concrete session
with both a retrieval and a synthesis in flight. -/
theorem stale_results_applied_witness :
    (bothPendingSession.pendingFetch = true ∧
     bothPendingSession.pendingSynth = true) ∧
    ((step (step bothPendingSession Event.reset) (Event.fetchArrive (FetchOutcome.success demoData))).comp.data = some demoData ∧
     (step (step bothPendingSession Event.reset) (Event.fetchArrive (FetchOutcome.success demoData))).comp.view = ViewState.echo ∧
     (step (step bothPendingSession Event.reset) (Event.fetchArrive (FetchOutcome.success demoData))).store.isSome = true ∧
     (step (step bothPendingSession Event.reset) (Event.synthArrive (SynthOutcome.success "https://img.example/a.png"))).comp.synthesisImage = some "https://img.example/a.png" ∧
     (step (step bothPendingSession Event.reset) (Event.synthArrive (SynthOutcome.success "https://img.example/a.png"))).comp.view = ViewState.artifact) :=
  ⟨⟨rfl, rfl⟩,
   stale_results_applied bothPendingSession demoData
     "https://img.example/a.png" rfl rfl⟩

/-- C5: from any session, reset clears the held result, the input text and
the artifact-image reference, returns the view to input, removes the
persisted snapshot (the save effect running on the cleared state does not
re-persist one, since no result is held), and restoring from the resulting
empty store changes nothing. -/
theorem reset_clears_all_state_and_snapshot (s : Session) :
    (step s Event.reset).comp.data = none ∧
    (step s Event.reset).comp.input = "" ∧
    (step s Event.reset).comp.view = ViewState.input ∧
    (step s Event.reset).comp.synthesisImage = none ∧
    (step s Event.reset).store = none ∧
    (∀ c, restoreSession (step s Event.reset).store c = c) :=
  ⟨rfl, rfl, rfl, rfl, rfl, fun _ => rfl⟩

/-- C6: in every reachable session, a snapshot is present in the
persistence slot exactly when a result is held (the save effect after each
committed state change writes one whenever a result is present), and reset
removes the snapshot entirely rather than persisting an empty one. -/
theorem snapshot_present_iff_result (s : Session) (h : Reachable s) :
    (s.store.isSome = true ↔ s.comp.data.isSome = true) ∧
    (step s Event.reset).store = none :=
  ⟨(reachable_inv h).1, rfl⟩

/-- Reachable session holding the first successful result. -/
def sessionAfterFirstResult : Session :=
  step (step (step initSession (Event.editInput "sad")) (Event.submitStart none))
    (Event.fetchArrive (FetchOutcome.success demoData))

/-- C6 witness: the invariant instantiated at the concrete reachable
session that has just received its first result. -/
theorem snapshot_present_iff_result_witness :
    Reachable sessionAfterFirstResult ∧
    ((sessionAfterFirstResult.store.isSome = true ↔
      sessionAfterFirstResult.comp.data.isSome = true) ∧
     (step sessionAfterFirstResult Event.reset).store = none) :=
  ⟨Reachable.next (Event.fetchArrive (FetchOutcome.success demoData))
     (Reachable.next (Event.submitStart none)
       (Reachable.next (Event.editInput "sad") Reachable.init)),
   snapshot_present_iff_result sessionAfterFirstResult
     (Reachable.next (Event.fetchArrive (FetchOutcome.success demoData))
       (Reachable.next (Event.submitStart none)
         (Reachable.next (Event.editInput "sad") Reachable.init)))⟩

/-- C7: from the Result (echo) view with a result held, synthesize issues
its request and enters the synthesizing view immediately (before the call
resolves); the view trace on success is echo, synthesizing, artifact in
that order; both failure outcomes land back on echo; and no outcome ever
lands on input. -/
theorem synthesis_view_transitions (c : ComponentState)
    (hv : c.view = ViewState.echo) (hd : c.data.isSome = true) :
    (generateArtifactStart c).2 = true ∧
    (generateArtifactStart c).1.view = ViewState.synthesizing ∧
    (∀ url, [c.view, (generateArtifactStart c).1.view,
        (generateArtifactResolve (SynthOutcome.success url)
          (generateArtifactStart c).1).view] =
      [ViewState.echo, ViewState.synthesizing, ViewState.artifact]) ∧
    (generateArtifactResolve SynthOutcome.transportFailure
      (generateArtifactStart c).1).view = ViewState.echo ∧
    (generateArtifactResolve SynthOutcome.decodeFailure
      (generateArtifactStart c).1).view = ViewState.echo ∧
    (∀ o, (generateArtifactResolve o (generateArtifactStart c).1).view ≠
      ViewState.input) := by
  refine ⟨?_, ?_, ?_, ?_, ?_, ?_⟩
  · simp [generateArtifactStart, hd]
  · simp [generateArtifactStart, hd]
  · intro url
    simp [generateArtifactStart, generateArtifactResolve, hd, hv]
  · simp [generateArtifactStart, generateArtifactResolve, hd]
  · simp [generateArtifactStart, generateArtifactResolve, hd]
  · intro o
    cases o <;> simp [generateArtifactStart, generateArtifactResolve, hd]

/-- C7 witness: the transition statement instantiated at the concrete
Result-view state produced by a successful submit. -/
theorem synthesis_view_transitions_witness :
    (echoResultState.view = ViewState.echo ∧
     echoResultState.data.isSome = true) ∧
    ((generateArtifactStart echoResultState).2 = true ∧
     (generateArtifactStart echoResultState).1.view = ViewState.synthesizing ∧
     (∀ url, [echoResultState.view, (generateArtifactStart echoResultState).1.view,
         (generateArtifactResolve (SynthOutcome.success url)
           (generateArtifactStart echoResultState).1).view] =
       [ViewState.echo, ViewState.synthesizing, ViewState.artifact]) ∧
     (generateArtifactResolve SynthOutcome.transportFailure
       (generateArtifactStart echoResultState).1).view = ViewState.echo ∧
     (generateArtifactResolve SynthOutcome.decodeFailure
       (generateArtifactStart echoResultState).1).view = ViewState.echo ∧
     (∀ o, (generateArtifactResolve o (generateArtifactStart echoResultState).1).view ≠
       ViewState.input)) :=
  ⟨⟨by decide, by decide⟩,
   synthesis_view_transitions echoResultState (by decide) (by decide)⟩
